import Mathlib

/-!
Verification development for the Signal Decoder game (a single React
component, `src/App.tsx`).  The component's pure logic is embedded
shallowly: the grid builder, the primality test, the five level rules,
the derived target set, and the event handlers (`toggleSelect`,
`submit`, `nextLevel`, `prevLevel`, `resetLevel`, the hint toggle and
the timer callbacks) become functions on an explicit `GameState`
mirroring the component's `useState` fields.  The round-initialisation
`useEffect` (which fires whenever `levelIndex` or `round` changes)
becomes `roundInit`, applied by exactly the handlers whose state
updates change one of those two dependencies.
-/

namespace SignalDecoder

/-- `type Cell = { index: number; row: number; col: number }` -/
structure Cell where
  index : Nat
  row : Nat
  col : Nat
deriving DecidableEq

/-- `const GRID_SIZE = 5` -/
def GRID_SIZE : Nat := 5

/-- `const FLASH_DURATION_MS = 10000` -/
def FLASH_DURATION_MS : Nat := 10000

/-- `const FLASH_INTERVAL_MS = 600` -/
def FLASH_INTERVAL_MS : Nat := 600

/-- `buildCells` generalised over the side length: the source loop
`for (let i = 0; i < n * n; i++) cells.push({ index: i, row: floor(i / n), col: i % n })`.
The source fixes `n` to the constant `GRID_SIZE`; see `buildCells`. -/
def buildCellsN (n : Nat) : List Cell :=
  (List.range (n * n)).map fun i => ⟨i, i / n, i % n⟩

/-- `const buildCells = (): Cell[] => ...` with `GRID_SIZE = 5`. -/
def buildCells : List Cell := buildCellsN GRID_SIZE

/-- Body of the `isPrime` loop `for (let i = 2; i * i <= n; i++) if (n % i === 0) return false`,
with explicit fuel (structural recursion); fuel `n + 1` starting at `i = 2`
is enough because the loop exits once `i * i > n` and hence at latest at `i = n + 1`. -/
def isPrimeLoop (n : Nat) : Nat → Nat → Bool
  | _, 0 => true
  | i, fuel + 1 =>
    if i * i ≤ n then
      if n % i = 0 then false else isPrimeLoop n (i + 1) fuel
    else true

/-- `const isPrime = (n) => { if (n < 2) return false; for (let i = 2; i * i <= n; i++) ... }` -/
def isPrime (n : Nat) : Bool :=
  if n < 2 then false else isPrimeLoop n 2 (n + 1)

/-- `type Level = { id, title, ruleDescription, ruleFn }` -/
structure Level where
  id : Nat
  title : String
  ruleDescription : String
  ruleFn : Cell → Bool

/-- Level 1 rule: `(c) => c.index % 2 === 0` -/
def level1 : Level :=
  { id := 1, title := "Even indices", ruleDescription := "index % 2 === 0",
    ruleFn := fun c => c.index % 2 = 0 }

/-- Level 2 rule: `(c) => c.row === c.col || c.row + c.col === GRID_SIZE - 1` -/
def level2 : Level :=
  { id := 2, title := "Diagonals", ruleDescription := "main diagonals",
    ruleFn := fun c => c.row = c.col || c.row + c.col = GRID_SIZE - 1 }

/-- Level 3 rule: `(c) => isPrime(c.index)` -/
def level3 : Level :=
  { id := 3, title := "Prime indices", ruleDescription := "prime indices",
    ruleFn := fun c => isPrime c.index }

/-- Level 4 rule: centre cell plus the four orthogonal neighbours,
`center = floor((GRID_SIZE * GRID_SIZE) / 2)`, `dr = |row - cr|`, `dc = |col - cc|`,
`(dr === 0 && dc === 0) || dr + dc === 1`. -/
def level4 : Level :=
  { id := 4, title := "Center cluster", ruleDescription := "center + 4 neighbours",
    ruleFn := fun c =>
      let center := (GRID_SIZE * GRID_SIZE) / 2
      let cr := center / GRID_SIZE
      let cc := center % GRID_SIZE
      let dr := ((c.row : Int) - (cr : Int)).natAbs
      let dc := ((c.col : Int) - (cc : Int)).natAbs
      (dr = 0 && dc = 0) || dr + dc = 1 }

/-- Level 5 rule: `(c) => (c.row + c.col) % 3 === 0` -/
def level5 : Level :=
  { id := 5, title := "(r + c) % 3 === 0", ruleDescription := "(row+col)%3===0",
    ruleFn := fun c => (c.row + c.col) % 3 = 0 }

/-- `const LEVELS: Level[] = [...]` -/
def LEVELS : List Level := [level1, level2, level3, level4, level5]

/-- `results` state: `{ correct: Set<number>; incorrect: Set<number> }` -/
structure RoundResult where
  correct : Finset Nat
  incorrect : Finset Nat
deriving DecidableEq

/-- The component's `useState` fields relevant to the engine. -/
structure GameState where
  levelIndex : Nat
  isFlashing : Bool
  flashOn : Bool
  selected : Finset Nat
  results : Option RoundResult
  score : Int
  hintShown : Bool
  timeLeft : Nat
  round : Nat
deriving DecidableEq

/-- `const level = LEVELS[levelIndex]` (in-bounds in every reachable state). -/
def activeLevel (s : GameState) : Level :=
  LEVELS.getD s.levelIndex level1

/-- `targetSet`: indices of the cells of `buildCells` satisfying the level rule
(`for (const c of cells) if (level.ruleFn(c)) s.add(c.index)`). -/
def targetSet (level : Level) : Finset Nat :=
  ((buildCells.filter fun c => level.ruleFn c).map Cell.index).toFinset

/-- `Math.ceil(FLASH_DURATION_MS / 1000)` (ceiling division on naturals). -/
def initTimeLeft : Nat := (FLASH_DURATION_MS + 999) / 1000

/-- The round-initialisation `useEffect` body, run whenever `levelIndex`
or `round` changes: restores flashing, clears selection/results/hint and
restarts the countdown. -/
def roundInit (s : GameState) : GameState :=
  { s with isFlashing := true, flashOn := true, selected := ∅,
           results := none, hintShown := false, timeLeft := initTimeLeft }

/-- `toggleSelect`: no-op while flashing or when results are set, else flips
membership of `idx` in `selected`. -/
def toggleSelect (idx : Nat) (s : GameState) : GameState :=
  if s.isFlashing then s
  else if s.results.isSome then s
  else if idx ∈ s.selected then { s with selected := s.selected.erase idx }
  else { s with selected := insert idx s.selected }

/-- Body of `submit` abstracted over the target set it diffs against
(in the component, the memoized `targetSet`): partitions `selected` into
`correct` / `incorrect`, computes `missed`, adds `Math.max(0, delta)` to the
score and stores `{ correct, incorrect ∪ missed }`. -/
def submitWith (T : Finset Nat) (s : GameState) : GameState :=
  if s.isFlashing then s
  else
    let correct := s.selected.filter fun idx => idx ∈ T
    let incorrect := s.selected.filter fun idx => idx ∉ T
    let missed := T.filter fun t => t ∉ s.selected
    let delta : Int := (correct.card : Int) - (incorrect.card : Int)
    { s with score := s.score + max 0 delta,
             results := some ⟨correct, incorrect ∪ missed⟩ }

/-- `const submit = () => { if (isFlashing) return; ... }` against the active
level's target set. -/
def submit (s : GameState) : GameState :=
  submitWith (targetSet (activeLevel s)) s

/-- The Submit button dispatch: `onClick={submit}` on a button with
`disabled={isFlashing || !!results}`, so the handler only fires when the
button is enabled. -/
def submitClick (s : GameState) : GameState :=
  if s.isFlashing || s.results.isSome then s else submit s

/-- `nextLevel`: `setLevelIndex((i) => Math.min(LEVELS.length - 1, i + 1))`;
when the index actually changes, the round-initialisation effect re-runs. -/
def nextLevel (s : GameState) : GameState :=
  let i := min (LEVELS.length - 1) (s.levelIndex + 1)
  if i = s.levelIndex then s else roundInit { s with levelIndex := i }

/-- `prevLevel`: `setLevelIndex((i) => Math.max(0, i - 1))` (truncated
subtraction on naturals agrees with `Math.max(0, i - 1)` on integers);
when the index actually changes, the round-initialisation effect re-runs. -/
def prevLevel (s : GameState) : GameState :=
  let i := max 0 (s.levelIndex - 1)
  if i = s.levelIndex then s else roundInit { s with levelIndex := i }

/-- The per-level buttons: `onClick={() => setLevelIndex(i)}`. -/
def selectLevel (i : Nat) (s : GameState) : GameState :=
  if i = s.levelIndex then s else roundInit { s with levelIndex := i }

/-- `const resetLevel = () => setRound((r) => r + 1)`: bumping the round
counter always changes an effect dependency, so the effect re-runs. -/
def resetLevel (s : GameState) : GameState :=
  roundInit { s with round := s.round + 1 }

/-- Hint button: `setHintShown((s) => !s)`. -/
def toggleHint (s : GameState) : GameState :=
  { s with hintShown := !s.hintShown }

/-- Flash interval callback: `setFlashOn((v) => !v)`. -/
def flashTick (s : GameState) : GameState :=
  { s with flashOn := !s.flashOn }

/-- Countdown interval callback: `setTimeLeft((t) => (t > 0 ? t - 1 : 0))`. -/
def countdownTick (s : GameState) : GameState :=
  { s with timeLeft := if s.timeLeft > 0 then s.timeLeft - 1 else 0 }

/-- One-shot timeout at the memorise boundary: `setIsFlashing(false); setFlashOn(false)`. -/
def stopFlash (s : GameState) : GameState :=
  { s with isFlashing := false, flashOn := false }

/-- The engine's inbound events: user interactions and timer callbacks. -/
inductive Event where
  | toggleSelect (idx : Nat)
  | submit
  | nextLevel
  | prevLevel
  | selectLevel (i : Nat)
  | resetLevel
  | toggleHint
  | flashTick
  | countdownTick
  | stopFlash
deriving DecidableEq

/-- One engine step: dispatch an event to its handler. -/
def step (e : Event) (s : GameState) : GameState :=
  match e with
  | .toggleSelect idx => toggleSelect idx s
  | .submit => submitClick s
  | .nextLevel => nextLevel s
  | .prevLevel => prevLevel s
  | .selectLevel i => selectLevel i s
  | .resetLevel => resetLevel s
  | .toggleHint => toggleHint s
  | .flashTick => flashTick s
  | .countdownTick => countdownTick s
  | .stopFlash => stopFlash s

/-- The component's initial state (the `useState` initialisers). -/
def initState : GameState :=
  { levelIndex := 0, isFlashing := true, flashOn := true, selected := ∅,
    results := none, score := 0, hintShown := false,
    timeLeft := initTimeLeft, round := 0 }

/-- A state in the `Resulted` phase (a result is already stored) used to
probe `submit` a second time: level 1 active, cell 0 selected and already
scored once. -/
def doubleSubmitState : GameState :=
  { levelIndex := 0, isFlashing := false, flashOn := false, selected := {0},
    results := some ⟨{0}, ∅⟩, score := 1, hintShown := false, timeLeft := 0,
    round := 0 }

/-- A `Selecting`-phase state on level 1 whose selection `{1}` is non-empty
and disjoint from the level-1 target set (the even indices). -/
def oddPickState : GameState :=
  { levelIndex := 0, isFlashing := false, flashOn := false, selected := {1},
    results := none, score := 0, hintShown := false, timeLeft := 0,
    round := 0 }

/-- A `Selecting`-phase state on level 1 whose selection equals the level-1
target set exactly. -/
def perfectPickState : GameState :=
  { levelIndex := 0, isFlashing := false, flashOn := false,
    selected := {0, 2, 4, 6, 8, 10, 12, 14, 16, 18, 20, 22, 24},
    results := none, score := 0, hintShown := false, timeLeft := 0,
    round := 0 }

/-- A `Selecting`-phase state with an empty selection and no result. -/
def selectingState : GameState :=
  { levelIndex := 0, isFlashing := false, flashOn := false, selected := ∅,
    results := none, score := 0, hintShown := false, timeLeft := 0,
    round := 0 }

/-- A mid-round state used to exercise non-`submit` events. -/
def midRoundState : GameState :=
  { levelIndex := 2, isFlashing := false, flashOn := false, selected := {3, 5},
    results := none, score := 0, hintShown := false, timeLeft := 0,
    round := 1 }

/-- A state on the last catalog level, for the navigation-clamping witness. -/
def lastLevelState : GameState :=
  { levelIndex := 4, isFlashing := true, flashOn := true, selected := ∅,
    results := none, score := 3, hintShown := false, timeLeft := 10,
    round := 0 }

end SignalDecoder

namespace SignalDecoder

/-- The indices of the cells built for side length `n` are exactly
`0, 1, ..., n*n - 1` in order. -/
theorem buildCells_index_map (n : Nat) :
    (buildCellsN n).map Cell.index = List.range (n * n) := by
  simp [buildCellsN, List.map_map]
  exact List.map_id _

/-- `submitWith` never lowers the score: it adds `max 0 delta ≥ 0`. -/
theorem submitWith_score_mono (T : Finset Nat) (s : GameState) :
    s.score ≤ (submitWith T s).score := by
  unfold submitWith
  split
  · exact le_refl _
  · exact le_add_of_nonneg_right (le_max_left 0 _)

/-- Claim C1, counterexample: in a state where a result is already stored
(`Resulted` phase), invoking the `submit` handler itself is not a no-op —
it re-scores the same round, raising the score from 1 to 2.  The handler
only guards `isFlashing`; the no-existing-result precondition lives in the
Submit button's `disabled` attribute, not in `submit`. -/
theorem C1_counterexample :
    doubleSubmitState.results.isSome = true ∧
    doubleSubmitState.score = 1 ∧ (submit doubleSubmitState).score = 2 := by
  decide

/-- Claim C1, amended: the `submit` handler is a no-op while the phase is
`Memorizing` (`isFlashing`); the guard against an existing result is
enforced at the dispatch level — the Submit button is disabled whenever
`isFlashing || !!results`, so the button-level operation `submitClick` is a
no-op both while memorising and once a result is set, and through the UI a
result is set at most once per round. -/
theorem C1_submit_noop_amended (s : GameState) :
    (s.isFlashing = true → submit s = s) ∧
    (s.isFlashing = true ∨ s.results.isSome = true → submitClick s = s) := by
  constructor
  · intro h
    simp [submit, submitWith, h]
  · intro h
    rcases h with h | h <;> simp [submitClick, h]

/-- Witness for C1 at `doubleSubmitState` (a state with a stored result). -/
theorem C1_submit_noop_witness : submitClick doubleSubmitState = doubleSubmitState :=
  (C1_submit_noop_amended doubleSubmitState).2 (Or.inr rfl)

/-- Claim C2: outside the `Memorizing` phase, `submit` against target set
`T` adds exactly `max 0 (|selection ∩ T| - |selection \ T|)` to the score
(missed targets do not subtract), and a non-empty selection disjoint from
`T` yields an empty `correct` set and leaves the score unchanged. -/
theorem C2_submit_delta (T : Finset Nat) (s : GameState) (h : s.isFlashing = false) :
    (submitWith T s).score =
      s.score + max 0 (((s.selected ∩ T).card : Int) - ((s.selected \ T).card : Int)) ∧
    (s.selected.Nonempty → s.selected ∩ T = ∅ →
      (∃ r, (submitWith T s).results = some r ∧ r.correct = ∅) ∧
        (submitWith T s).score = s.score) := by
  have hc : s.selected.filter (fun idx => idx ∈ T) = s.selected ∩ T :=
    Finset.filter_mem_eq_inter
  have hi : s.selected.filter (fun idx => idx ∉ T) = s.selected \ T :=
    (Finset.sdiff_eq_filter s.selected T).symm
  constructor
  · simp [submitWith, h, hc, hi]
  · intro hne hdisj
    constructor
    · refine ⟨⟨s.selected.filter (fun idx => idx ∈ T),
        (s.selected.filter fun idx => idx ∉ T) ∪ (T.filter fun t => t ∉ s.selected)⟩,
        ?_, ?_⟩
      · simp [submitWith, h]
      · simp [hc, hdisj]
    · simp [submitWith, h, hc, hi, hdisj]

/-- Witness for C2 at `oddPickState`, whose selection `{1}` is non-empty
and disjoint from the level-1 target set. -/
theorem C2_submit_delta_witness :
    (∃ r, (submitWith (targetSet level1) oddPickState).results = some r ∧ r.correct = ∅) ∧
    (submitWith (targetSet level1) oddPickState).score = oddPickState.score :=
  (C2_submit_delta (targetSet level1) oddPickState rfl).2 (by decide) (by decide)

/-- Claim C3: submitting when the selection equals the active target set
yields `|TargetSet|` correct cells, an empty incorrect set, and raises the
score by exactly `|TargetSet|`. -/
theorem C3_submit_perfect (s : GameState) (h : s.isFlashing = false)
    (hsel : s.selected = targetSet (activeLevel s)) :
    (∃ r, (submit s).results = some r ∧
      r.correct.card = (targetSet (activeLevel s)).card ∧ r.incorrect = ∅) ∧
    (submit s).score = s.score + (targetSet (activeLevel s)).card := by
  have hcorrect : (targetSet (activeLevel s)).filter
      (fun idx => idx ∈ targetSet (activeLevel s)) = targetSet (activeLevel s) := by
    rw [Finset.filter_mem_eq_inter, Finset.inter_self]
  have hinc : (targetSet (activeLevel s)).filter
      (fun idx => idx ∉ targetSet (activeLevel s)) = ∅ := by
    ext a; simp
  constructor
  · refine ⟨⟨targetSet (activeLevel s), ∅⟩, ?_, ?_, rfl⟩
    · simp [submit, submitWith, h, hsel, hcorrect, hinc]
    · rfl
  · simp [submit, submitWith, h, hsel, hcorrect, hinc]

/-- Witness for C3 at `perfectPickState`, whose selection is exactly the
level-1 target set. -/
theorem C3_submit_perfect_witness :
    (∃ r, (submit perfectPickState).results = some r ∧
      r.correct.card = (targetSet (activeLevel perfectPickState)).card ∧ r.incorrect = ∅) ∧
    (submit perfectPickState).score =
      perfectPickState.score + (targetSet (activeLevel perfectPickState)).card :=
  C3_submit_perfect perfectPickState rfl (by decide)

/-- Claim C4: the grid builder produces exactly `n * n` cells in row-major
order — position `i` holds the cell with index `i`, row `i / n`, column
`i % n` — with all indices distinct; the implementation instantiates it at
`GRID_SIZE = 5`. -/
theorem C4_buildGrid (n : Nat) :
    (buildCellsN n).length = n * n ∧
    (∀ i, i < n * n → (buildCellsN n)[i]? = some ⟨i, i / n, i % n⟩) ∧
    ((buildCellsN n).map Cell.index).Nodup ∧
    buildCells = buildCellsN 5 := by
  refine ⟨by simp [buildCellsN], ?_, ?_, rfl⟩
  · intro i h
    simp [buildCellsN, h]
  · rw [buildCells_index_map]
    exact List.nodup_range _

/-- Witness for C4 at `n = 5`, position 7 (row 1, column 2). -/
theorem C4_buildGrid_witness :
    (buildCellsN 5).length = 5 * 5 ∧ (buildCellsN 5)[7]? = some ⟨7, 1, 2⟩ ∧
    ((buildCellsN 5).map Cell.index).Nodup :=
  ⟨(C4_buildGrid 5).1, (C4_buildGrid 5).2.1 7 (by decide), (C4_buildGrid 5).2.2.1⟩

/-- Claim C5: for each of the five catalog levels at `N = 5` the computed
target set equals the spec's canonical rule applied to every grid index
(even index; main diagonals; prime index; Manhattan distance at most 1 from
the centre cell at row 2, column 2, i.e. index 12; `(row + col) % 3 = 0`),
and each set matches its hand enumeration. -/
theorem C5_target_sets :
    targetSet level1 = (Finset.range 25).filter (fun i => i % 2 = 0) ∧
    targetSet level1 = {0, 2, 4, 6, 8, 10, 12, 14, 16, 18, 20, 22, 24} ∧
    targetSet level2 = (Finset.range 25).filter (fun i => i / 5 = i % 5 ∨ i / 5 + i % 5 = 4) ∧
    targetSet level2 = {0, 4, 6, 8, 12, 16, 18, 20, 24} ∧
    targetSet level3 = (Finset.range 25).filter (fun i => Nat.Prime i) ∧
    targetSet level3 = {2, 3, 5, 7, 11, 13, 17, 19, 23} ∧
    targetSet level4 =
      (Finset.range 25).filter
        (fun i => (((i / 5 : Nat) : Int) - 2).natAbs + (((i % 5 : Nat) : Int) - 2).natAbs ≤ 1) ∧
    targetSet level4 = {7, 11, 12, 13, 17} ∧
    targetSet level5 = (Finset.range 25).filter (fun i => (i / 5 + i % 5) % 3 = 0) ∧
    targetSet level5 = {0, 3, 7, 11, 14, 15, 18, 22} ∧
    (GRID_SIZE * GRID_SIZE) / 2 = 12 := by
  decide

/-- Claim C6: in the `Selecting` phase with no result, `toggleSelect` flips
membership of the index in the selection (erase if present, insert if
absent) and is an involution on the selection; while memorising or once a
result is stored it is a no-op. -/
theorem C6_toggleSelect (s : GameState) (idx : Nat) :
    (s.isFlashing = false → s.results = none →
      ((idx ∈ s.selected → (toggleSelect idx s).selected = s.selected.erase idx) ∧
       (idx ∉ s.selected → (toggleSelect idx s).selected = insert idx s.selected) ∧
       (toggleSelect idx (toggleSelect idx s)).selected = s.selected)) ∧
    (s.isFlashing = true ∨ s.results.isSome = true → toggleSelect idx s = s) := by
  constructor
  · intro hf hr
    by_cases hm : idx ∈ s.selected
    · refine ⟨fun _ => ?_, fun hn => absurd hm hn, ?_⟩
      · simp [toggleSelect, hf, hr, hm]
      · simp [toggleSelect, hf, hr, hm, Finset.not_mem_erase, Finset.insert_erase]
    · refine ⟨fun hy => absurd hy hm, fun _ => ?_, ?_⟩
      · simp [toggleSelect, hf, hr, hm]
      · simp [toggleSelect, hf, hr, hm, Finset.mem_insert_self, Finset.erase_insert]
  · intro h
    rcases h with h | h <;> simp [toggleSelect, h]

/-- Witness for C6 at `selectingState`: toggling cell 3 twice restores the
selection. -/
theorem C6_toggleSelect_witness :
    (toggleSelect 3 (toggleSelect 3 selectingState)).selected = selectingState.selected :=
  ((C6_toggleSelect selectingState 3).1 rfl rfl).2.2

/-- Claim C7: no engine event ever lowers the score, every event preserves
its non-negativity (it starts at 0 in `initState`), and every event other
than `submit` leaves it exactly unchanged. -/
theorem C7_score_monotone (e : Event) (s : GameState) :
    initState.score = 0 ∧
    s.score ≤ (step e s).score ∧
    (0 ≤ s.score → 0 ≤ (step e s).score) ∧
    (e ≠ Event.submit → (step e s).score = s.score) := by
  have heq : e ≠ Event.submit → (step e s).score = s.score := by
    intro hne
    cases e with
    | toggleSelect idx =>
        simp only [step, toggleSelect]
        split_ifs <;> rfl
    | submit => exact absurd rfl hne
    | nextLevel =>
        simp only [step, nextLevel]
        split_ifs <;> rfl
    | prevLevel =>
        simp only [step, prevLevel]
        split_ifs <;> rfl
    | selectLevel i =>
        simp only [step, selectLevel]
        split_ifs <;> rfl
    | resetLevel => rfl
    | toggleHint => rfl
    | flashTick => rfl
    | countdownTick => rfl
    | stopFlash => rfl
  have hle : s.score ≤ (step e s).score := by
    by_cases he : e = Event.submit
    · subst he
      simp only [step, submitClick]
      split_ifs
      · exact le_refl _
      · exact submitWith_score_mono _ s
    · exact le_of_eq (heq he).symm
  exact ⟨rfl, hle, fun h0 => le_trans h0 hle, heq⟩

/-- Witness for C7: a `resetLevel` step from `midRoundState` keeps the
score non-negative and unchanged. -/
theorem C7_score_monotone_witness :
    0 ≤ (step Event.resetLevel midRoundState).score ∧
    (step Event.resetLevel midRoundState).score = midRoundState.score :=
  ⟨(C7_score_monotone Event.resetLevel midRoundState).2.2.1 (by decide),
   (C7_score_monotone Event.resetLevel midRoundState).2.2.2 (by decide)⟩

/-- Claim C8: level navigation clamps at the catalog bounds — `nextLevel`
yields `min 4 (i + 1)`, `prevLevel` yields `max 0 (i - 1)` — and for any
in-catalog index both stay within `0..4`. -/
theorem C8_nav_clamp (s : GameState) (h : s.levelIndex ≤ 4) :
    (nextLevel s).levelIndex = min 4 (s.levelIndex + 1) ∧
    (prevLevel s).levelIndex = max 0 (s.levelIndex - 1) ∧
    (nextLevel s).levelIndex ≤ 4 ∧ (prevLevel s).levelIndex ≤ 4 := by
  have hnext : (nextLevel s).levelIndex = min 4 (s.levelIndex + 1) := by
    simp only [nextLevel]
    split_ifs with hi
    · exact hi.symm
    · rfl
  have hprev : (prevLevel s).levelIndex = max 0 (s.levelIndex - 1) := by
    simp only [prevLevel]
    split_ifs with hi
    · exact hi.symm
    · rfl
  refine ⟨hnext, hprev, ?_, ?_⟩
  · rw [hnext]; omega
  · rw [hprev]; omega

/-- Witness for C8 at `lastLevelState` (level index 4): `nextLevel` stays
at 4, `prevLevel` goes to 3. -/
theorem C8_nav_clamp_witness :
    (nextLevel lastLevelState).levelIndex = min 4 (lastLevelState.levelIndex + 1) ∧
    (prevLevel lastLevelState).levelIndex = max 0 (lastLevelState.levelIndex - 1) ∧
    (nextLevel lastLevelState).levelIndex ≤ 4 ∧ (prevLevel lastLevelState).levelIndex ≤ 4 :=
  C8_nav_clamp lastLevelState (by decide)

/-- Claim C9: `resetLevel`, from any phase, restores a fresh memorising
round — flashing on, empty selection, no result, hint hidden, countdown
back to the full 10 seconds — while keeping the level index and the score
and bumping the round generation counter. -/
theorem C9_reset (s : GameState) :
    (resetLevel s).isFlashing = true ∧ (resetLevel s).flashOn = true ∧
    (resetLevel s).selected = ∅ ∧ (resetLevel s).results = none ∧
    (resetLevel s).hintShown = false ∧
    (resetLevel s).timeLeft = 10 ∧
    (resetLevel s).levelIndex = s.levelIndex ∧
    (resetLevel s).round = s.round + 1 ∧
    (resetLevel s).score = s.score :=
  ⟨rfl, rfl, rfl, rfl, rfl, rfl, rfl, rfl, rfl⟩

/-- Claim C10: every result produced by `submit` partitions the classified
cells — `correct` and `incorrect` are disjoint and their union is
`selection ∪ TargetSet`. -/
theorem C10_result_partition (s : GameState) (h : s.isFlashing = false) :
    ∃ r, (submit s).results = some r ∧ Disjoint r.correct r.incorrect ∧
      r.correct ∪ r.incorrect = s.selected ∪ targetSet (activeLevel s) := by
  refine ⟨⟨s.selected.filter (fun idx => idx ∈ targetSet (activeLevel s)),
      (s.selected.filter fun idx => idx ∉ targetSet (activeLevel s)) ∪
        ((targetSet (activeLevel s)).filter fun t => t ∉ s.selected)⟩,
    ?_, ?_, ?_⟩
  · simp [submit, submitWith, h]
  · rw [Finset.disjoint_left]
    intro a ha hb
    simp only [Finset.mem_filter, Finset.mem_union] at ha hb
    tauto
  · ext a
    simp only [Finset.mem_filter, Finset.mem_union]
    tauto

/-- Witness for C10 at `midRoundState` (level 3 active, selection `{3, 5}`). -/
theorem C10_result_partition_witness :
    ∃ r, (submit midRoundState).results = some r ∧ Disjoint r.correct r.incorrect ∧
      r.correct ∪ r.incorrect = midRoundState.selected ∪ targetSet (activeLevel midRoundState) :=
  C10_result_partition midRoundState rfl

end SignalDecoder
